import Mathlib

/-!
Shallow embedding of the VisaAgent interview backend
(src/backend/app/{vad,main,evaluation,utils,agent,orchestration}.py)
and proofs about the claims of its specification.
-/

namespace VisaAgent

/-! ## vad.py — end-of-speech detection -/

/-- Result of the external classifier `vad.is_speech(data[:320], SAMPLE_RATE)`
on a chunk's first full frame: speech, silence, or a raised exception. -/
inductive FrameClass where
  | speech
  | silence
  | err
deriving DecidableEq, Repr

/-- One inbound binary chunk: its byte length together with how the external
VAD would classify its first 320 bytes (relevant only when `320 ≤ size`). -/
structure Chunk where
  size : Nat
  cls : FrameClass
deriving DecidableEq, Repr

/-- One event produced by `websocket.receive_bytes()`: either a data chunk, or
the channel disconnecting (the call raising `WebSocketDisconnect`). -/
inductive RecvEvent where
  | chunk (c : Chunk)
  | disconnect
deriving DecidableEq, Repr

/-- `max_silence_frames = 50  # About 1.5 seconds of silence` (vad.py line 26). -/
def max_silence_frames : Nat := 50

/-- `detect_end_of_speech` (vad.py lines 15–65), with `silence_frames` as the
explicit accumulator.  Returns the list of yielded chunks together with a flag
telling whether a disconnect was consumed: the generator's catch-all
`except Exception` swallows `WebSocketDisconnect`, silently ending the
iteration, but the channel is then dead.  An exhausted event list means the
generator is still blocked on `receive_bytes` (model boundary). -/
def detectFrom : List RecvEvent → Nat → List Chunk × Bool
  | [], _ => ([], false)
  | RecvEvent.disconnect :: _, _ => ([], true)
  | RecvEvent.chunk c :: rest, silence_frames =>
    if c.size = 0 then
      ([], false)
    else
      let tail :=
        if c.size < 320 then
          detectFrom rest silence_frames
        else
          match c.cls with
          | FrameClass.err => detectFrom rest silence_frames
          | FrameClass.speech =>
            if max_silence_frames ≤ 0 then ([], false) else detectFrom rest 0
          | FrameClass.silence =>
            if max_silence_frames ≤ silence_frames + 1 then ([], false)
            else detectFrom rest (silence_frames + 1)
      (c :: tail.1, tail.2)

/-- The generator as used by `main.py`: starts with `silence_frames = 0`. -/
def detect_end_of_speech (evs : List RecvEvent) : List Chunk × Bool :=
  detectFrom evs 0

/-! ## evaluation.py — session scoring -/

/-- The session-final metrics map of evaluation.py: the four fixed keys
`fluency`, `confidence`, `contentAccuracy`, `responseTime`.  Scores are
modelled as rationals (the Python floats involved are small decimals). -/
structure Metrics where
  fluency : ℚ
  confidence : ℚ
  contentAccuracy : ℚ
  responseTime : ℚ
deriving DecidableEq, Repr

/-- `default_metrics` of `evaluate_session` (evaluation.py lines 33–38). -/
def default_metrics : Metrics :=
  { fluency := 7, confidence := 13/2, contentAccuracy := 15/2, responseTime := 8 }

/-- `generate_feedback_from_metrics` (evaluation.py lines 121–139):
three canned texts, chosen by the average of the four scores. -/
def generate_feedback_from_metrics (m : Metrics) : String :=
  let avg_score := (m.fluency + m.confidence + m.contentAccuracy + m.responseTime) / 4
  if 8 ≤ avg_score then
    "Excellent interview performance! You communicated clearly and confidently. Your answers were relevant and well-structured. You're well-prepared for your visa interview."
  else if 6 ≤ avg_score then
    "Good interview performance. You answered most questions adequately, but there's room for improvement. Try to be more specific in your answers and work on expressing yourself more confidently."
  else
    "Your interview needs improvement. Focus on providing more relevant answers and practice speaking more fluently. Make sure to listen carefully to questions and take your time to formulate complete responses."

/-- The four optional numeric fields and optional feedback of the JSON object
a successful Mistral evaluation call parses to (evaluation.py lines 95–105). -/
structure EvalContent where
  fluency : Option ℚ
  confidence : Option ℚ
  content_accuracy : Option ℚ
  response_time : Option ℚ
  feedback : Option String
deriving DecidableEq, Repr

/-- Outcome of the Mistral API interaction inside `evaluate_session` for a
non-empty log: `noKey` (MISTRAL_API_KEY unset), `apiFailure` (non-200 status,
timeout, raised exception, or JSON that does not decode — all of which the
function resolves to `default_metrics`), or a decoded evaluation object. -/
inductive EvalApi where
  | noKey
  | apiFailure
  | ok (c : EvalContent)
deriving DecidableEq, Repr

/-- A completed turn as logged by main.py: `(question, answer_text, timestamp)`,
with `datetime.now()` abstracted to a natural-number clock value. -/
abbrev Turn : Type := String × String × Nat

/-- `evaluate_session` (evaluation.py lines 13–119).  The empty-log branch is
deterministic; the non-empty branch is driven by the API outcome `api`.
`float(...)` conversions that would raise on a non-numeric field are part of
the `apiFailure` case (the outer `except Exception` returns the defaults). -/
def evaluate_session (api : EvalApi) (session_log : List Turn) : Metrics × String :=
  if session_log.isEmpty then
    ({ fluency := 5, confidence := 5, contentAccuracy := 5, responseTime := 5 },
     "No interview data available for evaluation.")
  else
    match api with
    | EvalApi.noKey => (default_metrics, generate_feedback_from_metrics default_metrics)
    | EvalApi.apiFailure => (default_metrics, generate_feedback_from_metrics default_metrics)
    | EvalApi.ok c =>
      let metrics : Metrics :=
        { fluency := c.fluency.getD 7
          confidence := c.confidence.getD 7
          contentAccuracy := c.content_accuracy.getD 7
          responseTime := c.response_time.getD 7 }
      (metrics, c.feedback.getD (generate_feedback_from_metrics metrics))

/-! ## main.py — the `/ws/agent` session engine -/

/-- Messages the engine sends over the websocket (main.py lines 100–191). -/
inductive OutMsg where
  | questionMsg (q : String)
  | audioBytes (size : Nat)
  | startRecord
  | ack (answerText : String)
  | errorMsg (message : String)
  | complete (metrics : Metrics) (feedback : String)
deriving DecidableEq, Repr

/-- `InterviewSession` (main.py lines 61–69). -/
structure InterviewSession where
  visa_type : String
  voice : String
  remaining_questions : Int
  session_log : List Turn
  current_question : Option String
deriving DecidableEq, Repr

/-- Environment behaviour for one iteration of the question loop: the outcome
of each awaited collaborator call (`Except.error e` models the call raising an
exception with text `e`), the inbound events seen while recording, and the
wall-clock value used for the turn's timestamp. -/
structure TurnEnv where
  question : Except String String
  audio : Except String Nat
  recv : List RecvEvent
  transcript : Except String String
  now : Nat
deriving Repr

/-- Result of one iteration of the `while session.remaining_questions > 0`
loop: either the loop continues with the channel still alive, or an exception
escaped the iteration (only possible through a transport fault) and the whole
handler unwinds past the evaluation block to the outer handlers. -/
inductive StepOut where
  | cont (s : InterviewSession) (msgs : List OutMsg)
  | abort (s : InterviewSession) (msgs : List OutMsg)
deriving Repr

/-- `session.session_log.append(...)` + `session.remaining_questions -= 1`
(main.py lines 133–135). -/
def appendTurn (s : InterviewSession) (q a : String) (t : Nat) : InterviewSession :=
  { s with
    session_log := s.session_log ++ [(q, a, t)]
    remaining_questions := s.remaining_questions - 1 }

/-- One iteration of the question loop (main.py lines 91–152), entered with a
live channel.  When `detect_end_of_speech` consumed a disconnect, every later
send on the channel raises, the inner handler's own error send raises again,
and the exception escapes the loop: the iteration aborts with only the
messages that were sent before the disconnect actually delivered. -/
def runTurn (s : InterviewSession) (env : TurnEnv) : StepOut :=
  match env.question with
  | Except.error e =>
    StepOut.cont s [OutMsg.errorMsg ("Error processing question: " ++ e)]
  | Except.ok q =>
    let s1 := { s with current_question := some q }
    match env.audio with
    | Except.error e =>
      StepOut.cont s1 [OutMsg.questionMsg q, OutMsg.errorMsg ("Error processing question: " ++ e)]
    | Except.ok n =>
      let pre := [OutMsg.questionMsg q, OutMsg.audioBytes n, OutMsg.startRecord]
      let rec_ := detect_end_of_speech env.recv
      let chunks := rec_.1
      let disconnected := rec_.2
      if chunks.isEmpty then
        if disconnected then
          StepOut.abort s1 pre
        else
          StepOut.cont s1 pre
      else
        match env.transcript with
        | Except.error e =>
          if disconnected then
            StepOut.abort s1 pre
          else
            StepOut.cont s1 (pre ++ [OutMsg.errorMsg ("Error processing question: " ++ e)])
        | Except.ok answer_text =>
          let s2 := appendTurn s1 q answer_text env.now
          if disconnected then
            StepOut.abort s2 pre
          else
            StepOut.cont s2 (pre ++ [OutMsg.ack answer_text])

/-- How a run of the engine ended: `completed` (complete message emitted, or
an evaluation-stage error message), `aborted` (a transport fault unwound the
handler), or `outOfEnv` (the supplied schedule ran out while the loop was
still going — a model boundary, not a termination of the Python loop). -/
inductive Outcome where
  | completed
  | aborted
  | outOfEnv
  | configError
deriving DecidableEq, Repr

structure RunResult where
  session : InterviewSession
  msgs : List OutMsg
  outcome : Outcome
deriving Repr

/-- The `while session.remaining_questions > 0` loop followed by the
evaluation block (main.py lines 91–172), driven by a schedule of per-turn
environments. -/
def runLoop (api : EvalApi) : List TurnEnv → InterviewSession → RunResult
  | envs, s =>
    if s.remaining_questions ≤ 0 then
      let ev := evaluate_session api s.session_log
      { session := s, msgs := [OutMsg.complete ev.1 ev.2], outcome := Outcome.completed }
    else
      match envs with
      | [] => { session := s, msgs := [], outcome := Outcome.outOfEnv }
      | env :: rest =>
        match runTurn s env with
        | StepOut.cont s' msgs =>
          let r := runLoop api rest s'
          { session := r.session, msgs := msgs ++ r.msgs, outcome := r.outcome }
        | StepOut.abort s' msgs =>
          { session := s', msgs := msgs, outcome := Outcome.aborted }

/-- The initial configuration object, after `json.loads` succeeded: the three
fields read with `config.get(..., default)` (main.py lines 81–83). -/
structure InitConfig where
  visaType : Option String
  voice : Option String
  questionCount : Option Int
deriving Repr

/-- Everything the `/ws/agent` handler sends for one connection
(main.py lines 71–191).  `init = none` models a first message that is not
valid JSON: the `json.JSONDecodeError` handler sends one error message and the
handler returns without ever creating a session. -/
structure AgentRun where
  msgs : List OutMsg
  outcome : Outcome
  finalSession : Option InterviewSession
deriving Repr

/-- `interview_agent` (main.py lines 71–191). -/
def interview_agent (init : Option InitConfig) (api : EvalApi)
    (envs : List TurnEnv) : AgentRun :=
  match init with
  | none =>
    { msgs := [OutMsg.errorMsg "Invalid JSON format: "]
      outcome := Outcome.configError
      finalSession := none }
  | some config =>
    let visa_type := config.visaType.getD "tourist"
    let voice := config.voice.getD "VoiceA"
    let question_count := config.questionCount.getD 5
    let session : InterviewSession :=
      { visa_type := visa_type, voice := voice
        remaining_questions := question_count
        session_log := [], current_question := none }
    let r := runLoop api envs session
    { msgs := r.msgs, outcome := r.outcome, finalSession := some r.session }

/-! ## utils.py — text scraping helpers

Characters are handled as `List Char`; `'\x7b'`/`'\x7d'` escapes and
`Char.ofNat` are used for brace and backtick characters. -/

def lbraceCh : Char := Char.ofNat 123

def rbraceCh : Char := Char.ofNat 125

def backtickCh : Char := Char.ofNat 96

/-- Python `\s` / `str.strip()` whitespace, on the ASCII range. -/
def pySpace (c : Char) : Bool :=
  c = ' ' ∨ c = '\t' ∨ c = '\n' ∨ c = '\r' ∨ c = '\x0b' ∨ c = '\x0c'

/-- Python `str.strip()`. -/
def pyStrip (cs : List Char) : List Char :=
  ((cs.dropWhile pySpace).reverse.dropWhile pySpace).reverse

/-- The group `[^\.]+\?` matched at offset `k` of `u`, greedily: the longest
`u[k..j)` with `k + 2 ≤ j`, no `'.'` among `u[k..j-1)`, and `u[j-1] = '?'`
(the regex engine backtracks from the longest candidate down). -/
def groupAt (u : List Char) (k : Nat) : Option (List Char) :=
  ((List.range (u.length + 1)).reverse).findSome? fun j =>
    if k + 2 ≤ j ∧ ((u.take (j - 1)).drop k).all (fun c => c ≠ '.')
        ∧ (u.drop (j - 1)).head? = some '?' then
      some ((u.take j).drop k)
    else
      none

/-- `\s*([^\.]+\?)` matched at the start of `u`: the engine first takes the
maximal whitespace run for `\s*`, then backtracks it one character at a time
when the group cannot be completed. -/
def tryMatchAt (u : List Char) : Option (List Char) :=
  ((List.range ((u.takeWhile pySpace).length + 1)).reverse).findSome? fun k =>
    groupAt u k

/-- The `[\.\n]`-anchored alternatives of `(?:^|[\.\n])\s*([^\.]+\?)`, scanned
left to right over the text. -/
def searchDots : List Char → Option (List Char)
  | [] => none
  | c :: rest =>
    if c = '.' ∨ c = '\n' then
      match tryMatchAt rest with
      | some g => some g
      | none => searchDots rest
    else
      searchDots rest

/-- `re.search(r'(?:^|[\.\n])\s*([^\.]+\?)', text)`: the `^` alternative at
offset 0 first, then the anchor-character alternatives at increasing offsets. -/
def questionSearch (cs : List Char) : Option (List Char) :=
  match tryMatchAt cs with
  | some g => some g
  | none => searchDots cs

/-- `extract_question_from_text` (utils.py lines 94–111): the regex group,
stripped, else the stripped original text.  The same regex is used at
agent.py line 159 and orchestration.py line 209. -/
def extract_question_from_text (s : String) : String :=
  match questionSearch s.data with
  | some g => String.mk (pyStrip g)
  | none => String.mk (pyStrip s.data)

/-- The specification's reading of question extraction ("find the first
substring ending in a question mark that starts at the beginning of the text
or immediately after a period/newline"): locate the first question mark, start
from just after the closest preceding period/newline (or the text start), and
strip. -/
def specFirstQuestion (s : String) : String :=
  let cs := s.data
  match cs.findIdx? (fun c => c = '?') with
  | none => String.mk (pyStrip cs)
  | some p =>
    let i := (((List.range (p + 1)).reverse).findSome? fun i =>
      if i = 0 ∨ (cs.take i).getLast? = some '.' ∨ (cs.take i).getLast? = some '\n' then
        some i
      else
        none).getD 0
    String.mk (pyStrip ((cs.take (p + 1)).drop i))

/-! ### A model of `json.loads`

A recursive-descent parser for the JSON fragment consisting of objects,
arrays, double-quoted strings without backslash escapes, integer/decimal
numbers without exponents, `true`, `false` and `null` — the fragment the
repository's scraped payloads live in.  `json.loads` raises on trailing
non-whitespace, which the model reflects by returning `none`. -/

inductive Json where
  | num (q : ℚ)
  | str (s : String)
  | bool (b : Bool)
  | null
  | arr (xs : List Json)
  | obj (kvs : List (String × Json))

/-- JSON inter-token whitespace. -/
def jsonWs (c : Char) : Bool :=
  c = ' ' ∨ c = '\t' ∨ c = '\n' ∨ c = '\r'

/-- Value of a digit run, most significant first. -/
def digitsVal (ds : List Char) : Nat :=
  ds.foldl (fun a c => a * 10 + (c.toNat - 48)) 0

/-- Parse a JSON number (optional leading minus, digits, optional fraction). -/
def parseJsonNum (cs : List Char) : Option (ℚ × List Char) :=
  let (neg, cs) := match cs with
    | '-' :: rest => (true, rest)
    | _ => (false, cs)
  let ds := cs.takeWhile Char.isDigit
  if ds.isEmpty then
    none
  else
    let rest := cs.drop ds.length
    let intPart : ℚ := (digitsVal ds : ℚ)
    let (v, rest) := match rest with
      | '.' :: r2 =>
        let fs := r2.takeWhile Char.isDigit
        if fs.isEmpty then
          (intPart, rest)
        else
          (intPart + (digitsVal fs : ℚ) / ((10 : ℚ) ^ fs.length), r2.drop fs.length)
      | _ => (intPart, rest)
    some (if neg then -v else v, rest)

/-- Parse a JSON string body after the opening quote (no escape handling;
a backslash makes the parse fail, narrowing the modelled fragment). -/
def parseJsonStr : List Char → Option (String × List Char)
  | [] => none
  | c :: rest =>
    if c = '"' then
      some ("", rest)
    else if c = '\\' then
      none
    else
      match parseJsonStr rest with
      | some (s, r) => some (String.mk (c :: s.data), r)
      | none => none

mutual

/-- Parse one JSON value after leading whitespace. -/
def parseJsonVal : Nat → List Char → Option (Json × List Char)
  | 0, _ => none
  | fuel + 1, cs =>
    let cs := cs.dropWhile jsonWs
    match cs with
    | [] => none
    | c :: rest =>
      if c = '"' then
        match parseJsonStr rest with
        | some (s, r) => some (Json.str s, r)
        | none => none
      else if c = lbraceCh then
        parseJsonObjBody fuel (rest.dropWhile jsonWs) true
      else if c = '[' then
        parseJsonArrBody fuel (rest.dropWhile jsonWs) true
      else if ['t', 'r', 'u', 'e'].isPrefixOf cs then
        some (Json.bool true, cs.drop 4)
      else if ['f', 'a', 'l', 's', 'e'].isPrefixOf cs then
        some (Json.bool false, cs.drop 5)
      else if ['n', 'u', 'l', 'l'].isPrefixOf cs then
        some (Json.null, cs.drop 4)
      else
        match parseJsonNum cs with
        | some (q, r) => some (Json.num q, r)
        | none => none

/-- Parse the members of an object, after the opening brace (and after a comma
when `first = false` is reached recursively). -/
def parseJsonObjBody : Nat → List Char → Bool → Option (Json × List Char)
  | 0, _, _ => none
  | fuel + 1, cs, first =>
    match cs with
    | c :: rest =>
      if c = rbraceCh ∧ first then
        some (Json.obj [], rest)
      else if c = '"' then
        match parseJsonStr rest with
        | none => none
        | some (k, r1) =>
          match (r1.dropWhile jsonWs) with
          | ':' :: r2 =>
            match parseJsonVal fuel r2 with
            | none => none
            | some (v, r3) =>
              match r3.dropWhile jsonWs with
              | ',' :: r4 =>
                match parseJsonObjBody fuel (r4.dropWhile jsonWs) false with
                | some (Json.obj kvs, r5) => some (Json.obj ((k, v) :: kvs), r5)
                | _ => none
              | c2 :: r4 =>
                if c2 = rbraceCh then some (Json.obj [(k, v)], r4) else none
              | [] => none
          | _ => none
      else
        none
    | [] => none

/-- Parse the elements of an array, after the opening bracket. -/
def parseJsonArrBody : Nat → List Char → Bool → Option (Json × List Char)
  | 0, _, _ => none
  | fuel + 1, cs, first =>
    match cs with
    | ']' :: rest =>
      if first then some (Json.arr [], rest) else none
    | _ =>
      match parseJsonVal fuel cs with
      | none => none
      | some (v, r1) =>
        match r1.dropWhile jsonWs with
        | ',' :: r2 =>
          match parseJsonArrBody fuel (r2.dropWhile jsonWs) false with
          | some (Json.arr xs, r3) => some (Json.arr (v :: xs), r3)
          | _ => none
        | ']' :: r2 => some (Json.arr [v], r2)
        | _ => none

end

/-- `json.loads`, on the fragment described above: one value, then nothing but
whitespace. -/
def pyJsonLoads (s : String) : Option Json :=
  match parseJsonVal (s.length + 1) s.data with
  | some (v, rest) => if (rest.dropWhile jsonWs).isEmpty then some v else none
  | none => none

/-- First index at which `pat` occurs in the text, if any. -/
def findSub (pat : List Char) : List Char → Option Nat
  | [] => if pat.isEmpty then some 0 else none
  | l@(_ :: rest) =>
    if pat.isPrefixOf l then some 0 else (findSub pat rest).map (· + 1)

/-- Three backticks. -/
def fenceDelim : List Char := [backtickCh, backtickCh, backtickCh]

/-- Newline followed by three backticks. -/
def fenceClose : List Char := '\n' :: fenceDelim

/-- The tag-and-newline that may follow the opening fence. -/
def jsonTagNl : List Char := ['j', 's', 'o', 'n', '\n']

/-- `re.search(r'```(?:json)?\n(.*?)\n```', text, re.DOTALL)` — the group.
At each candidate start the engine prefers the `json` alternative, the lazy
`(.*?)` stops at the first later newline-plus-fence, and on failure the scan
moves one character right. -/
def fencedGroup : List Char → Option (List Char)
  | [] => none
  | l@(_ :: rest) =>
    if fenceDelim.isPrefixOf l then
      let after := l.drop 3
      if jsonTagNl.isPrefixOf after then
        match findSub fenceClose (after.drop 5) with
        | some m => some ((after.drop 5).take m)
        | none => fencedGroup rest
      else if after.head? = some '\n' then
        match findSub fenceClose (after.drop 1) with
        | some m => some ((after.drop 1).take m)
        | none => fencedGroup rest
      else
        fencedGroup rest
    else
      fencedGroup rest

/-- `re.search(r'```json\n(.*?)\n```', content, re.DOTALL)` — the variant at
agent.py line 228, where the `json` tag is mandatory. -/
def fencedGroupJsonTag : List Char → Option (List Char)
  | [] => none
  | l@(_ :: rest) =>
    if (fenceDelim ++ jsonTagNl).isPrefixOf l then
      match findSub fenceClose (l.drop 8) with
      | some m => some ((l.drop 8).take m)
      | none => fencedGroupJsonTag rest
    else
      fencedGroupJsonTag rest

/-- Last index at which `c` occurs. -/
def lastIdxOf (c : Char) (cs : List Char) : Option Nat :=
  (cs.reverse.findIdx? (fun x => x = c)).map (fun r => cs.length - 1 - r)

/-- `re.search(r'\{.*\}', text, re.DOTALL)` — the matched substring: the
greedy `.*` makes it run from the first opening brace to the last closing
brace of the whole text (no match when no closing brace follows the first
opening brace). -/
def braceSpan (cs : List Char) : Option (List Char) :=
  match cs.findIdx? (fun c => c = lbraceCh) with
  | none => none
  | some fo =>
    match lastIdxOf rbraceCh cs with
    | none => none
    | some lc => if fo < lc then some ((cs.take (lc + 1)).drop fo) else none

/-- The brace-then-empty tail of `extract_json_from_text` (utils.py
lines 83–92). -/
def braceAttempt (s : String) : Json :=
  match braceSpan s.data with
  | some sub => (pyJsonLoads (String.mk sub)).getD (Json.obj [])
  | none => Json.obj []

/-- `extract_json_from_text` (utils.py lines 62–92): fenced block first (its
parse failure falls through via the bare `except`), then the brace span, then
the empty dict. -/
def extract_json_from_text (s : String) : Json :=
  match fencedGroup s.data with
  | some g =>
    match pyJsonLoads (String.mk g) with
    | some v => v
    | none => braceAttempt s
  | none => braceAttempt s

/-- The specification's reading of the second fallback ("the first
brace-delimited substring in the text"): from the first opening brace to the
first closing brace after it. -/
def specFirstBraceSubstring (cs : List Char) : Option (List Char) :=
  match cs.findIdx? (fun c => c = lbraceCh) with
  | none => none
  | some fo =>
    match ((cs.drop (fo + 1)).findIdx? (fun c => c = rbraceCh)) with
    | none => none
    | some d => some ((cs.take (fo + 1 + d + 1)).drop fo)

/-- The brace-then-empty tail of structured extraction, as the specification
words it ("the first brace-delimited substring in the text"). -/
def specBraceAttempt (s : String) : Json :=
  match specFirstBraceSubstring s.data with
  | some sub => (pyJsonLoads (String.mk sub)).getD (Json.obj [])
  | none => Json.obj []

/-- Structured extraction as the specification words it: fenced block, else
the first brace-delimited substring, else the empty result. -/
def specExtractJson (s : String) : Json :=
  match fencedGroup s.data with
  | some g =>
    match pyJsonLoads (String.mk g) with
    | some v => v
    | none => specBraceAttempt s
  | none => specBraceAttempt s

/-- Modelled from the spec: the FallbackChain consuming extractor results is
not part of src/ (no code calls `extract_json_from_text`); per the spec it
"treats an empty result as equivalent to a failed source and advances to the
next fallback". -/
def fallbackChainAccepts (v : Json) : Bool :=
  match v with
  | Json.obj [] => false
  | _ => true

/-! ## agent.py — `InterviewAgent.evaluate_answer` response parsing -/

/-- Key lookup in a parsed JSON object (first binding wins, as in a Python
dict built by `json.loads`, whose repeated keys keep the last — the modelled
payloads have distinct keys). -/
def Json.lookup (v : Json) (k : String) : Option Json :=
  match v with
  | Json.obj kvs => (kvs.find? (fun kv => kv.1 = k)).map (·.2)
  | _ => none

/-- The fallback metrics literal repeated at agent.py lines 187–192, 239–244,
247–252 and 258–263. -/
def agentDefaultMetrics : Json :=
  Json.obj [("relevance", Json.num 7), ("clarity", Json.num 7),
            ("detail", Json.num 6), ("consistency", Json.num 8)]

/-- The response-parsing tail of `InterviewAgent.evaluate_answer`
(agent.py lines 221–263), as a function of the generated `content`: a fenced
`json` block is `json.loads`-ed (failure reaching the outer
`except Exception`), else the brace span is tried under the nested
`try/except`, and every failure path returns the default metrics literal.
A successful parse is returned as-is. -/
def evaluate_answer_extract (content : String) : Json :=
  match fencedGroupJsonTag content.data with
  | some g =>
    match pyJsonLoads (String.mk g) with
    | some v => v
    | none => agentDefaultMetrics
  | none =>
    match braceSpan content.data with
    | some sub => (pyJsonLoads (String.mk sub)).getD agentDefaultMetrics
    | none => agentDefaultMetrics

/-! ## orchestration.py — `process_response` metric scraping -/

/-- The per-turn default metrics map of `process_response`
(orchestration.py lines 189–194), in insertion order. -/
def processDefaultMetrics : List (String × ℚ) :=
  [("relevance", 7), ("clarity", 7), ("detail", 6), ("consistency", 8)]

/-- `\d+(?:\.\d+)?` at the head of `cs`, as a rational. -/
def leadingNumber (cs : List Char) : Option ℚ :=
  let ds := cs.takeWhile Char.isDigit
  if ds.isEmpty then
    none
  else
    match cs.drop ds.length with
    | '.' :: r2 =>
      let fs := r2.takeWhile Char.isDigit
      if fs.isEmpty then
        some (digitsVal ds : ℚ)
      else
        some ((digitsVal ds : ℚ) + (digitsVal fs : ℚ) / ((10 : ℚ) ^ fs.length))
    | _ => some (digitsVal ds : ℚ)

/-- `re.search(fr"{metric}[:\s]+(\d+(?:\.\d+)?)", evaluation, re.IGNORECASE)`
(orchestration.py lines 199–200): scan for the metric name (the names are
lower-case; matching is case-insensitive), require at least one colon or
whitespace character, then a number. -/
def findMetricValue (name : List Char) : List Char → Option ℚ
  | [] => none
  | l@(_ :: rest) =>
    if name.isPrefixOf (l.map Char.toLower) then
      let after := l.drop name.length
      let w := (after.takeWhile (fun c => c = ':' ∨ pySpace c)).length
      match leadingNumber (after.drop w) with
      | some q => if 1 ≤ w then some q else findMetricValue name rest
      | none => findMetricValue name rest
    else
      findMetricValue name rest

/-- The metric-extraction block of `process_response` (orchestration.py
lines 185–206): the defaults, each key overwritten by the first regex match
for it in the evaluation text when one exists (`evaluation = None` skips the
whole block; the `except ValueError` is unreachable since the matched text is
always a valid float literal). -/
def process_response_metrics (evaluation : Option String) : List (String × ℚ) :=
  match evaluation with
  | none => processDefaultMetrics
  | some ev =>
    processDefaultMetrics.map fun kv =>
      (kv.1, (findMetricValue kv.1.data ev.data).getD kv.2)

/-! ## Lemmas about the end-of-speech detector -/

/-- A run of full-frame silence chunks short of the threshold passes through
and advances the silence counter by its length. -/
theorem detectFrom_silence_run (cs : List Chunk) :
    ∀ (sf : Nat) (rest : List RecvEvent),
      (∀ c ∈ cs, 320 ≤ c.size ∧ c.cls = FrameClass.silence) →
      sf + cs.length < max_silence_frames →
      detectFrom (cs.map RecvEvent.chunk ++ rest) sf =
        (cs ++ (detectFrom rest (sf + cs.length)).1, (detectFrom rest (sf + cs.length)).2) := by
  induction cs with
  | nil => intro sf rest _ _; simp
  | cons c cs ih =>
    intro sf rest hall hlt
    obtain ⟨hsz, hcls⟩ := hall c (List.mem_cons_self c cs)
    have hne : ¬ c.size = 0 := by omega
    have hnlt : ¬ c.size < 320 := by omega
    have hth : ¬ max_silence_frames ≤ sf + 1 := by
      simp only [List.length_cons] at hlt; omega
    have hrec := ih (sf + 1) rest (fun c' hc' => hall c' (List.mem_cons_of_mem c hc'))
      (by simp only [List.length_cons] at hlt ⊢; omega)
    have hsf : sf + 1 + cs.length = sf + (cs.length + 1) := by omega
    rw [hsf] at hrec
    simp only [List.map_cons, List.cons_append, detectFrom, hne, if_false, hnlt, hcls,
      hth, List.length_cons, List.append_eq, hrec]

/-- A run of full-frame silence chunks that exactly reaches the threshold
terminates the sequence there: everything received is emitted, nothing after
the threshold is consumed. -/
theorem detectFrom_silence_stop (cs : List Chunk) :
    ∀ (sf : Nat) (rest : List RecvEvent),
      (∀ c ∈ cs, 320 ≤ c.size ∧ c.cls = FrameClass.silence) →
      sf + cs.length = max_silence_frames → cs ≠ [] →
      detectFrom (cs.map RecvEvent.chunk ++ rest) sf = (cs, false) := by
  induction cs with
  | nil => intro _ _ _ _ hne; exact absurd rfl hne
  | cons c cs ih =>
    intro sf rest hall heq _
    obtain ⟨hsz, hcls⟩ := hall c (List.mem_cons_self c cs)
    have hne : ¬ c.size = 0 := by omega
    have hnlt : ¬ c.size < 320 := by omega
    rcases List.eq_nil_or_concat cs with hnil | _
    · subst hnil
      have hth : max_silence_frames ≤ sf + 1 := by
        simp only [List.length_cons, List.length_nil] at heq; omega
      simp [detectFrom, hne, hnlt, hcls, hth]
    · have hcs : cs ≠ [] := by
        rintro rfl
        simp only [List.length_cons, List.length_nil] at heq
        rename_i hconcat
        obtain ⟨l, a, hla⟩ := hconcat
        exact absurd hla (by simp)
      have hlen : 1 ≤ cs.length := by
        cases cs with
        | nil => exact absurd rfl hcs
        | cons _ _ => simp
      have hth : ¬ max_silence_frames ≤ sf + 1 := by
        simp only [List.length_cons] at heq; omega
      have hrec := ih (sf + 1) rest (fun c' hc' => hall c' (List.mem_cons_of_mem c hc'))
        (by simp only [List.length_cons] at heq; omega) hcs
      simp [detectFrom, hne, hnlt, hcls, hth, hrec]

/-- A consumed disconnect is only reported when the event stream contains one. -/
theorem detectFrom_disconnect_mem :
    ∀ (evs : List RecvEvent) (sf : Nat),
      (detectFrom evs sf).2 = true → RecvEvent.disconnect ∈ evs := by
  intro evs
  induction evs with
  | nil => intro sf h; simp [detectFrom] at h
  | cons ev rest ih =>
    intro sf h
    cases ev with
    | disconnect => exact List.mem_cons_self _ _
    | chunk c =>
      simp only [detectFrom] at h
      by_cases hz : c.size = 0
      · simp [hz] at h
      · simp only [hz, if_false] at h
        by_cases hlt : c.size < 320
        · simp only [hlt, if_true] at h
          exact List.mem_cons_of_mem _ (ih sf h)
        · simp only [hlt, if_false] at h
          cases hcls : c.cls <;> simp only [hcls] at h
          · split at h
            · simp at h
            · exact List.mem_cons_of_mem _ (ih 0 h)
          · split at h
            · simp at h
            · exact List.mem_cons_of_mem _ (ih _ h)
          · exact List.mem_cons_of_mem _ (ih sf h)

/-! ## Lemmas about the text scrapers -/

/-- A successful `findSome?` exhibits a witness in the list. -/
theorem exists_of_findSome?_eq_some {α β : Type} {f : α → Option β} {b : β} :
    ∀ {l : List α}, l.findSome? f = some b → ∃ a ∈ l, f a = some b := by
  intro l
  induction l with
  | nil => intro h; simp [List.findSome?_nil] at h
  | cons a l ih =>
    intro h
    cases hfa : f a with
    | some c =>
      refine ⟨a, List.mem_cons_self _ _, ?_⟩
      rw [List.findSome?_cons, hfa] at h
      rw [hfa]
      exact h
    | none =>
      rw [List.findSome?_cons, hfa] at h
      obtain ⟨x, hx, hfx⟩ := ih h
      exact ⟨x, List.mem_cons_of_mem _ hx, hfx⟩

/-- The question-group matcher only succeeds on text containing `'?'`. -/
theorem groupAt_qmark {u : List Char} {k : Nat} {g : List Char}
    (h : groupAt u k = some g) : '?' ∈ u := by
  obtain ⟨j, _, hj⟩ := exists_of_findSome?_eq_some h
  split at hj
  · rename_i hP
    have h3 := hP.2.2
    have hmem : '?' ∈ u.drop (j - 1) := by
      cases hd : u.drop (j - 1) with
      | nil => rw [hd] at h3; cases h3
      | cons x xs =>
        rw [hd] at h3
        simp only [List.head?_cons, Option.some.injEq] at h3
        rw [h3]
        exact List.mem_cons_self _ _
    exact List.mem_of_mem_drop hmem
  · cases hj

/-- The anchored matcher only succeeds on text containing `'?'`. -/
theorem tryMatchAt_qmark {u : List Char} {g : List Char}
    (h : tryMatchAt u = some g) : '?' ∈ u := by
  obtain ⟨k, _, hk⟩ := exists_of_findSome?_eq_some h
  exact groupAt_qmark hk

/-- The anchor scan only succeeds on text containing `'?'`. -/
theorem searchDots_qmark : ∀ {cs : List Char} {g : List Char},
    searchDots cs = some g → '?' ∈ cs := by
  intro cs
  induction cs with
  | nil => intro g h; simp [searchDots] at h
  | cons c rest ih =>
    intro g h
    unfold searchDots at h
    split at h
    · cases htm : tryMatchAt rest with
      | some g' => exact List.mem_cons_of_mem _ (tryMatchAt_qmark htm)
      | none =>
        rw [htm] at h
        exact List.mem_cons_of_mem _ (ih h)
    · exact List.mem_cons_of_mem _ (ih h)

/-- The whole regex search only succeeds on text containing `'?'`. -/
theorem questionSearch_qmark {cs : List Char} {g : List Char}
    (h : questionSearch cs = some g) : '?' ∈ cs := by
  unfold questionSearch at h
  cases htm : tryMatchAt cs with
  | some g' => exact tryMatchAt_qmark htm
  | none =>
    rw [htm] at h
    exact searchDots_qmark h

/-! ## Lemmas about the session engine -/

/-- Iteration outcome when question retrieval raises: one error message,
session untouched, loop continues (main.py lines 145–152). -/
theorem runTurn_eq_question_error (s : InterviewSession) (env : TurnEnv) (e : String)
    (hq : env.question = Except.error e) :
    runTurn s env = StepOut.cont s [OutMsg.errorMsg ("Error processing question: " ++ e)] := by
  simp [runTurn, hq]

/-- Iteration outcome when speech synthesis raises: the question text already
went out, then one error message; loop continues. -/
theorem runTurn_eq_tts_error (s : InterviewSession) (env : TurnEnv) (q e : String)
    (hq : env.question = Except.ok q) (ha : env.audio = Except.error e) :
    runTurn s env = StepOut.cont { s with current_question := some q }
      [OutMsg.questionMsg q, OutMsg.errorMsg ("Error processing question: " ++ e)] := by
  simp [runTurn, hq, ha]

/-- Iteration outcome when recording yields no chunks with the channel still
alive: the turn is skipped without touching log or counter. -/
theorem runTurn_eq_no_audio (s : InterviewSession) (env : TurnEnv) (q : String) (n : Nat)
    (hq : env.question = Except.ok q) (ha : env.audio = Except.ok n)
    (hrec : detect_end_of_speech env.recv = ([], false)) :
    runTurn s env = StepOut.cont { s with current_question := some q }
      [OutMsg.questionMsg q, OutMsg.audioBytes n, OutMsg.startRecord] := by
  simp [runTurn, hq, ha, hrec]

/-- Iteration outcome when the channel disconnected during recording and no
chunk had been received: the next send raises and the iteration aborts
without appending a turn. -/
theorem runTurn_eq_no_audio_disconnect (s : InterviewSession) (env : TurnEnv)
    (q : String) (n : Nat)
    (hq : env.question = Except.ok q) (ha : env.audio = Except.ok n)
    (hrec : detect_end_of_speech env.recv = ([], true)) :
    runTurn s env = StepOut.abort { s with current_question := some q }
      [OutMsg.questionMsg q, OutMsg.audioBytes n, OutMsg.startRecord] := by
  simp [runTurn, hq, ha, hrec]

/-- Iteration outcome when transcription raises with the channel alive: one
error message after the pre-recording messages; loop continues. -/
theorem runTurn_eq_transcribe_error (s : InterviewSession) (env : TurnEnv)
    (q e : String) (n : Nat) (c : Chunk) (cs : List Chunk)
    (hq : env.question = Except.ok q) (ha : env.audio = Except.ok n)
    (hrec : detect_end_of_speech env.recv = (c :: cs, false))
    (ht : env.transcript = Except.error e) :
    runTurn s env = StepOut.cont { s with current_question := some q }
      ([OutMsg.questionMsg q, OutMsg.audioBytes n, OutMsg.startRecord] ++
        [OutMsg.errorMsg ("Error processing question: " ++ e)]) := by
  simp [runTurn, hq, ha, hrec, ht]

/-- Iteration outcome when transcription raises after a mid-recording
disconnect: the iteration aborts without appending a turn. -/
theorem runTurn_eq_transcribe_error_disconnect (s : InterviewSession) (env : TurnEnv)
    (q e : String) (n : Nat) (c : Chunk) (cs : List Chunk)
    (hq : env.question = Except.ok q) (ha : env.audio = Except.ok n)
    (hrec : detect_end_of_speech env.recv = (c :: cs, true))
    (ht : env.transcript = Except.error e) :
    runTurn s env = StepOut.abort { s with current_question := some q }
      [OutMsg.questionMsg q, OutMsg.audioBytes n, OutMsg.startRecord] := by
  simp [runTurn, hq, ha, hrec, ht]

/-- Iteration outcome of a fully successful turn: turn appended, counter
decremented, acknowledgement sent. -/
theorem runTurn_eq_ok (s : InterviewSession) (env : TurnEnv)
    (q a : String) (n : Nat) (c : Chunk) (cs : List Chunk)
    (hq : env.question = Except.ok q) (ha : env.audio = Except.ok n)
    (hrec : detect_end_of_speech env.recv = (c :: cs, false))
    (ht : env.transcript = Except.ok a) :
    runTurn s env = StepOut.cont
      (appendTurn { s with current_question := some q } q a env.now)
      ([OutMsg.questionMsg q, OutMsg.audioBytes n, OutMsg.startRecord] ++
        [OutMsg.ack a]) := by
  simp [runTurn, hq, ha, hrec, ht]

/-- Iteration outcome when the channel disconnected mid-recording after some
chunks had been received and transcription of the partial audio succeeds: a
turn IS appended before the failing acknowledgement aborts the iteration. -/
theorem runTurn_eq_ok_disconnect (s : InterviewSession) (env : TurnEnv)
    (q a : String) (n : Nat) (c : Chunk) (cs : List Chunk)
    (hq : env.question = Except.ok q) (ha : env.audio = Except.ok n)
    (hrec : detect_end_of_speech env.recv = (c :: cs, true))
    (ht : env.transcript = Except.ok a) :
    runTurn s env = StepOut.abort
      (appendTurn { s with current_question := some q } q a env.now)
      [OutMsg.questionMsg q, OutMsg.audioBytes n, OutMsg.startRecord] := by
  simp [runTurn, hq, ha, hrec, ht]

/-- One loop iteration either leaves the log and counter alone or appends
exactly one turn and decrements the counter by one. -/
theorem runTurn_log_cases (s : InterviewSession) (env : TurnEnv)
    (s' : InterviewSession) (msgs : List OutMsg)
    (h : runTurn s env = StepOut.cont s' msgs ∨ runTurn s env = StepOut.abort s' msgs) :
    (s'.session_log = s.session_log ∧ s'.remaining_questions = s.remaining_questions)
    ∨ (s'.session_log.length = s.session_log.length + 1
       ∧ s'.remaining_questions = s.remaining_questions - 1) := by
  rcases hq : env.question with e | q
  · rw [runTurn_eq_question_error s env e hq] at h
    rcases h with h | h <;> cases h
    exact Or.inl ⟨rfl, rfl⟩
  · rcases ha : env.audio with e | n
    · rw [runTurn_eq_tts_error s env q e hq ha] at h
      rcases h with h | h <;> cases h
      exact Or.inl ⟨rfl, rfl⟩
    · rcases hrec : detect_end_of_speech env.recv with ⟨chunks, disc⟩
      cases chunks with
      | nil =>
        cases disc
        · rw [runTurn_eq_no_audio s env q n hq ha hrec] at h
          rcases h with h | h <;> cases h
          exact Or.inl ⟨rfl, rfl⟩
        · rw [runTurn_eq_no_audio_disconnect s env q n hq ha hrec] at h
          rcases h with h | h <;> cases h
          exact Or.inl ⟨rfl, rfl⟩
      | cons c cs =>
        rcases ht : env.transcript with e | a
        · cases disc
          · rw [runTurn_eq_transcribe_error s env q e n c cs hq ha hrec ht] at h
            rcases h with h | h <;> cases h
            exact Or.inl ⟨rfl, rfl⟩
          · rw [runTurn_eq_transcribe_error_disconnect s env q e n c cs hq ha hrec ht] at h
            rcases h with h | h <;> cases h
            exact Or.inl ⟨rfl, rfl⟩
        · cases disc
          · rw [runTurn_eq_ok s env q a n c cs hq ha hrec ht] at h
            rcases h with h | h <;> cases h
            exact Or.inr ⟨by simp [appendTurn], rfl⟩
          · rw [runTurn_eq_ok_disconnect s env q a n c cs hq ha hrec ht] at h
            rcases h with h | h <;> cases h
            exact Or.inr ⟨by simp [appendTurn], rfl⟩

/-- A loop iteration can only abort when the inbound stream disconnected. -/
theorem runTurn_cont_of_no_disconnect (s : InterviewSession) (env : TurnEnv)
    (hnd : RecvEvent.disconnect ∉ env.recv) :
    ∃ s' msgs, runTurn s env = StepOut.cont s' msgs := by
  have hdisc : (detect_end_of_speech env.recv).2 = false := by
    by_contra h
    exact hnd (detectFrom_disconnect_mem env.recv 0 (by
      unfold detect_end_of_speech at h
      exact Bool.not_eq_false _ ▸ Bool.of_not_eq_false h))
  unfold runTurn
  rcases hq : env.question with e | q
  · exact ⟨_, _, rfl⟩
  · rcases ha : env.audio with e | n
    · exact ⟨_, _, rfl⟩
    · simp only []
      split
      · rw [hdisc]
        exact ⟨_, _, rfl⟩
      · rcases ht : env.transcript with e | a
        · rw [hdisc]
          exact ⟨_, _, rfl⟩
        · rw [hdisc]
          exact ⟨_, _, rfl⟩

/-- The loop preserves the budget sum `len(log) + remaining`, keeps the
counter non-negative, and reaches the evaluation block only with the counter
at zero or below. -/
theorem runLoop_invariant (api : EvalApi) :
    ∀ (envs : List TurnEnv) (s : InterviewSession),
      ((runLoop api envs s).session.session_log.length : ℤ)
          + (runLoop api envs s).session.remaining_questions
        = (s.session_log.length : ℤ) + s.remaining_questions
      ∧ (0 ≤ s.remaining_questions → 0 ≤ (runLoop api envs s).session.remaining_questions)
      ∧ ((runLoop api envs s).outcome = Outcome.completed →
          (runLoop api envs s).session.remaining_questions ≤ 0) := by
  intro envs
  induction envs with
  | nil =>
    intro s
    by_cases hle : s.remaining_questions ≤ 0 <;> simp [runLoop, hle]
  | cons env rest ih =>
    intro s
    by_cases hle : s.remaining_questions ≤ 0
    · simp [runLoop, hle]
    · rcases hstep : runTurn s env with ⟨s', msgs⟩ | ⟨s', msgs⟩
      · have hcases := runTurn_log_cases s env s' msgs (Or.inl hstep)
        have hsum : (s'.session_log.length : ℤ) + s'.remaining_questions
            = (s.session_log.length : ℤ) + s.remaining_questions := by
          rcases hcases with ⟨h1, h2⟩ | ⟨h1, h2⟩ <;> rw [h2] <;> push_cast [h1] <;> omega
        have hrem : 0 ≤ s'.remaining_questions := by
          rcases hcases with ⟨_, h2⟩ | ⟨_, h2⟩ <;> omega
        have := ih s'
        simp only [runLoop, hle, if_false, hstep]
        refine ⟨by rw [this.1, hsum], fun _ => this.2.1 hrem, this.2.2⟩
      · simp only [runLoop, hle, if_false, hstep]
        have hcases := runTurn_log_cases s env s' msgs (Or.inr hstep)
        refine ⟨?_, ?_, ?_⟩
        · rcases hcases with ⟨h1, h2⟩ | ⟨h1, h2⟩ <;> rw [h2] <;> push_cast [h1] <;> omega
        · intro h0
          rcases hcases with ⟨_, h2⟩ | ⟨_, h2⟩ <;> omega
        · intro h; cases h

/-- With no transport fault in the schedule, the loop never aborts. -/
theorem runLoop_no_disconnect (api : EvalApi) :
    ∀ (envs : List TurnEnv) (s : InterviewSession),
      (∀ env ∈ envs, RecvEvent.disconnect ∉ env.recv) →
      (runLoop api envs s).outcome = Outcome.completed
      ∨ (runLoop api envs s).outcome = Outcome.outOfEnv := by
  intro envs
  induction envs with
  | nil =>
    intro s _
    by_cases hle : s.remaining_questions ≤ 0 <;> simp [runLoop, hle]
  | cons env rest ih =>
    intro s hnd
    by_cases hle : s.remaining_questions ≤ 0
    · simp [runLoop, hle]
    · obtain ⟨s', msgs, hstep⟩ :=
        runTurn_cont_of_no_disconnect s env (hnd env (List.mem_cons_self _ _))
      simp only [runLoop, hle, if_false, hstep]
      exact ih s' (fun e he => hnd e (List.mem_cons_of_mem _ he))

/-- A run that starts with the counter at zero finalizes immediately: it emits
only the completion message and runs no turn. -/
theorem runLoop_finalizes_at_zero (api : EvalApi) (envs : List TurnEnv)
    (s : InterviewSession) (h : s.remaining_questions = 0) :
    runLoop api envs s =
      { session := s
        msgs := [OutMsg.complete (evaluate_session api s.session_log).1
                  (evaluate_session api s.session_log).2]
        outcome := Outcome.completed } := by
  have hle : s.remaining_questions ≤ 0 := by omega
  cases envs <;> simp [runLoop, hle]

/-! ## Claim theorems -/

/-- C1: for every session with a non-negative configured questionCount, after
each completed turn (equivalently, at the state any schedule leaves behind)
`len(turns) + remaining == questionCount`; `len(turns)` never exceeds the
configured questionCount; and the engine leaves the question loop to finalize
exactly when the remaining count reaches 0: a completed run ends with
remaining = 0, and any session whose remaining count is 0 finalizes at once. -/
theorem C1_budget_invariant (cfg : InitConfig) (qc : Int) (api : EvalApi)
    (envs : List TurnEnv) (s : InterviewSession)
    (hqc : cfg.questionCount = some qc) (hpos : 0 ≤ qc)
    (hfin : (interview_agent (some cfg) api envs).finalSession = some s) :
    ((s.session_log.length : ℤ) + s.remaining_questions = qc
     ∧ (s.session_log.length : ℤ) ≤ qc
     ∧ ((interview_agent (some cfg) api envs).outcome = Outcome.completed →
         s.remaining_questions = 0))
    ∧ (∀ s0 : InterviewSession, s0.remaining_questions = 0 →
        (runLoop api envs s0).outcome = Outcome.completed
        ∧ (runLoop api envs s0).session = s0) := by
  constructor
  · have hs : s = (runLoop api envs
        { visa_type := cfg.visaType.getD "tourist", voice := cfg.voice.getD "VoiceA"
          remaining_questions := qc, session_log := [], current_question := none }).session := by
      simp only [interview_agent, hqc, Option.getD_some, Option.some.injEq] at hfin
      exact hfin.symm
    have hout : (interview_agent (some cfg) api envs).outcome =
        (runLoop api envs
          { visa_type := cfg.visaType.getD "tourist", voice := cfg.voice.getD "VoiceA"
            remaining_questions := qc, session_log := [], current_question := none }).outcome := by
      simp [interview_agent, hqc]
    have hinv := runLoop_invariant api envs
      { visa_type := cfg.visaType.getD "tourist", voice := cfg.voice.getD "VoiceA"
        remaining_questions := qc, session_log := [], current_question := none }
    simp only [List.length_nil, Nat.cast_zero, zero_add] at hinv
    refine ⟨by rw [hs]; exact hinv.1, ?_, ?_⟩
    · rw [hs]
      have h1 := hinv.1
      have h2 := hinv.2.1 hpos
      omega
    · intro hc
      rw [hout] at hc
      have h1 := hinv.2.2 hc
      have h2 := hinv.2.1 hpos
      rw [hs]
      omega
  · intro s0 h0
    rw [runLoop_finalizes_at_zero api envs s0 h0]
    exact ⟨rfl, rfl⟩

/-- C1 witness: a two-question session with a fully healthy two-turn schedule
ends with exactly two logged turns, within the budget of 2. -/
theorem C1_budget_invariant_witness :
    ((InterviewSession.mk "tourist" "VoiceA" 0 [("Q", "A", 1), ("Q", "A", 1)]
        (some "Q")).session_log.length : ℤ) ≤ 2 :=
  (C1_budget_invariant (InitConfig.mk none none (some 2)) 2 EvalApi.noKey
    [TurnEnv.mk (Except.ok "Q") (Except.ok 4)
      [RecvEvent.chunk (Chunk.mk 320 FrameClass.speech),
       RecvEvent.chunk (Chunk.mk 0 FrameClass.silence)] (Except.ok "A") 1,
     TurnEnv.mk (Except.ok "Q") (Except.ok 4)
      [RecvEvent.chunk (Chunk.mk 320 FrameClass.speech),
       RecvEvent.chunk (Chunk.mk 0 FrameClass.silence)] (Except.ok "A") 1]
    (InterviewSession.mk "tourist" "VoiceA" 0 [("Q", "A", 1), ("Q", "A", 1)] (some "Q"))
    rfl (by norm_num) rfl).1.2.1

/-- C2: any exception from a collaborator call during a turn — question
retrieval, synthesis, or transcription — is caught, produces exactly one
error control message, leaves the session log and counter untouched, and the
loop continues; a session run terminates abnormally only on transport
disconnection or malformed initial configuration, never because a
collaborator failed. -/
theorem C2_collaborator_errors_nonfatal :
    (∀ (cfg : InitConfig) (api : EvalApi) (envs : List TurnEnv),
      (∀ env ∈ envs, RecvEvent.disconnect ∉ env.recv) →
      (interview_agent (some cfg) api envs).outcome = Outcome.completed
      ∨ (interview_agent (some cfg) api envs).outcome = Outcome.outOfEnv)
    ∧ (∀ (s : InterviewSession) (env : TurnEnv) (e : String),
      env.question = Except.error e →
      runTurn s env = StepOut.cont s
        [OutMsg.errorMsg ("Error processing question: " ++ e)])
    ∧ (∀ (s : InterviewSession) (env : TurnEnv) (q e : String),
      env.question = Except.ok q → env.audio = Except.error e →
      runTurn s env = StepOut.cont { s with current_question := some q }
        [OutMsg.questionMsg q, OutMsg.errorMsg ("Error processing question: " ++ e)])
    ∧ (∀ (s : InterviewSession) (env : TurnEnv) (q e : String) (n : Nat)
        (c : Chunk) (cs : List Chunk),
      env.question = Except.ok q → env.audio = Except.ok n →
      detect_end_of_speech env.recv = (c :: cs, false) →
      env.transcript = Except.error e →
      runTurn s env = StepOut.cont { s with current_question := some q }
        ([OutMsg.questionMsg q, OutMsg.audioBytes n, OutMsg.startRecord] ++
          [OutMsg.errorMsg ("Error processing question: " ++ e)])) := by
  refine ⟨?_, runTurn_eq_question_error, runTurn_eq_tts_error,
    fun s env q e n c cs hq ha hrec ht =>
      runTurn_eq_transcribe_error s env q e n c cs hq ha hrec ht⟩
  intro cfg api envs hnd
  have := runLoop_no_disconnect api envs
    { visa_type := cfg.visaType.getD "tourist", voice := cfg.voice.getD "VoiceA"
      remaining_questions := cfg.questionCount.getD 5
      session_log := [], current_question := none } hnd
  simpa [interview_agent] using this

/-- C2 witness: with every collaborator call failing on a disconnect-free
schedule, the run still never aborts, and each failure kind produces exactly
its single error message on concrete inputs. -/
theorem C2_collaborator_errors_nonfatal_witness :
    ((interview_agent (some (InitConfig.mk none none (some 1))) EvalApi.noKey
        [TurnEnv.mk (Except.error "boom") (Except.ok 0) [] (Except.ok "A") 0]).outcome
      = Outcome.completed
     ∨ (interview_agent (some (InitConfig.mk none none (some 1))) EvalApi.noKey
        [TurnEnv.mk (Except.error "boom") (Except.ok 0) [] (Except.ok "A") 0]).outcome
      = Outcome.outOfEnv)
    ∧ runTurn (InterviewSession.mk "tourist" "VoiceA" 1 [] none)
        (TurnEnv.mk (Except.error "boom") (Except.ok 0) [] (Except.ok "A") 0)
      = StepOut.cont (InterviewSession.mk "tourist" "VoiceA" 1 [] none)
        [OutMsg.errorMsg ("Error processing question: " ++ "boom")]
    ∧ runTurn (InterviewSession.mk "tourist" "VoiceA" 1 [] none)
        (TurnEnv.mk (Except.ok "Q") (Except.error "tts down") [] (Except.ok "A") 0)
      = StepOut.cont (InterviewSession.mk "tourist" "VoiceA" 1 [] (some "Q"))
        [OutMsg.questionMsg "Q", OutMsg.errorMsg ("Error processing question: " ++ "tts down")]
    ∧ runTurn (InterviewSession.mk "tourist" "VoiceA" 1 [] none)
        (TurnEnv.mk (Except.ok "Q") (Except.ok 3)
          [RecvEvent.chunk (Chunk.mk 320 FrameClass.speech),
           RecvEvent.chunk (Chunk.mk 0 FrameClass.silence)] (Except.error "asr down") 0)
      = StepOut.cont (InterviewSession.mk "tourist" "VoiceA" 1 [] (some "Q"))
        ([OutMsg.questionMsg "Q", OutMsg.audioBytes 3, OutMsg.startRecord] ++
          [OutMsg.errorMsg ("Error processing question: " ++ "asr down")]) := by
  refine ⟨?_, ?_, ?_, ?_⟩
  · exact C2_collaborator_errors_nonfatal.1 _ _ _ (by intro env henv; simp at henv; simp [henv])
  · exact C2_collaborator_errors_nonfatal.2.1 _ _ _ rfl
  · exact C2_collaborator_errors_nonfatal.2.2.1 _ _ _ _ rfl rfl
  · exact C2_collaborator_errors_nonfatal.2.2.2 _ _ _ _ _
      (Chunk.mk 320 FrameClass.speech) [] rfl rfl rfl rfl

/-- C3 counterexample: the channel disconnects mid-recording after one speech
chunk was received; `detect_end_of_speech` swallows the `WebSocketDisconnect`,
the partial audio is transcribed, and a `Turn` IS appended to the session log
for the interrupted question (with the counter decremented) before the
session unwinds — contradicting the claim that no Turn is appended. -/
theorem C3_counterexample :
    runTurn (InterviewSession.mk "tourist" "VoiceA" 2 [] none)
        (TurnEnv.mk (Except.ok "Q1") (Except.ok 10)
          [RecvEvent.chunk (Chunk.mk 320 FrameClass.speech), RecvEvent.disconnect]
          (Except.ok "partial answer") 7)
      = StepOut.abort
          (InterviewSession.mk "tourist" "VoiceA" 1 [("Q1", "partial answer", 7)] (some "Q1"))
          [OutMsg.questionMsg "Q1", OutMsg.audioBytes 10, OutMsg.startRecord]
    ∧ detect_end_of_speech
        [RecvEvent.chunk (Chunk.mk 320 FrameClass.speech), RecvEvent.disconnect]
      = ([Chunk.mk 320 FrameClass.speech], true) :=
  ⟨rfl, rfl⟩

/-- C3 amended: on a mid-recording disconnect the session aborts (ends
errored) with no outbound message after the pre-recording ones; no Turn is
appended when no chunk had been received before the disconnect, but when
chunks had been received and the partial audio transcribes, a Turn IS
appended and the counter decremented before the session unwinds. -/
theorem C3_amended_disconnect_behaviour :
    (∀ (s : InterviewSession) (env : TurnEnv) (q : String) (n : Nat),
      env.question = Except.ok q → env.audio = Except.ok n →
      detect_end_of_speech env.recv = ([], true) →
      runTurn s env = StepOut.abort { s with current_question := some q }
        [OutMsg.questionMsg q, OutMsg.audioBytes n, OutMsg.startRecord])
    ∧ (∀ (s : InterviewSession) (env : TurnEnv) (q a : String) (n : Nat)
        (c : Chunk) (cs : List Chunk),
      env.question = Except.ok q → env.audio = Except.ok n →
      detect_end_of_speech env.recv = (c :: cs, true) →
      env.transcript = Except.ok a →
      runTurn s env = StepOut.abort
        (appendTurn { s with current_question := some q } q a env.now)
        [OutMsg.questionMsg q, OutMsg.audioBytes n, OutMsg.startRecord])
    ∧ (∀ (api : EvalApi) (rest : List TurnEnv) (env : TurnEnv)
        (s s' : InterviewSession) (msgs : List OutMsg),
      ¬ s.remaining_questions ≤ 0 →
      runTurn s env = StepOut.abort s' msgs →
      runLoop api (env :: rest) s =
        { session := s', msgs := msgs, outcome := Outcome.aborted }) := by
  refine ⟨runTurn_eq_no_audio_disconnect, runTurn_eq_ok_disconnect, ?_⟩
  intro api rest env s s' msgs hrem hstep
  simp [runLoop, hrem, hstep]

/-- C3 amended witness: the two disconnect shapes and the abort propagation,
on concrete inputs. -/
theorem C3_amended_disconnect_behaviour_witness :
    runTurn (InterviewSession.mk "tourist" "VoiceA" 2 [] none)
        (TurnEnv.mk (Except.ok "Q1") (Except.ok 10) [RecvEvent.disconnect]
          (Except.ok "A") 7)
      = StepOut.abort (InterviewSession.mk "tourist" "VoiceA" 2 [] (some "Q1"))
          [OutMsg.questionMsg "Q1", OutMsg.audioBytes 10, OutMsg.startRecord]
    ∧ runTurn (InterviewSession.mk "tourist" "VoiceA" 2 [] none)
        (TurnEnv.mk (Except.ok "Q1") (Except.ok 10)
          [RecvEvent.chunk (Chunk.mk 320 FrameClass.speech), RecvEvent.disconnect]
          (Except.ok "A") 7)
      = StepOut.abort
          (appendTurn (InterviewSession.mk "tourist" "VoiceA" 2 [] (some "Q1")) "Q1" "A" 7)
          [OutMsg.questionMsg "Q1", OutMsg.audioBytes 10, OutMsg.startRecord]
    ∧ runLoop EvalApi.noKey
        [TurnEnv.mk (Except.ok "Q1") (Except.ok 10) [RecvEvent.disconnect] (Except.ok "A") 7]
        (InterviewSession.mk "tourist" "VoiceA" 2 [] none)
      = { session := InterviewSession.mk "tourist" "VoiceA" 2 [] (some "Q1")
          msgs := [OutMsg.questionMsg "Q1", OutMsg.audioBytes 10, OutMsg.startRecord]
          outcome := Outcome.aborted } := by
  refine ⟨?_, ?_, ?_⟩
  · exact C3_amended_disconnect_behaviour.1 _ _ _ _ rfl rfl rfl
  · exact C3_amended_disconnect_behaviour.2.1 _ _ _ _ _
      (Chunk.mk 320 FrameClass.speech) [] rfl rfl rfl rfl
  · exact C3_amended_disconnect_behaviour.2.2 _ _ _ _ _ _ (by norm_num)
      (C3_amended_disconnect_behaviour.1 _ _ _ _ rfl rfl rfl)

/-- C9: a recording phase that produces zero audio chunks (with the channel
alive) skips transcription and evaluation: the loop iteration ends with the
session log and remaining-question counter exactly as they were (only the
pending-question field is refreshed), no ack and no error message, and the
loop continues so the same question slot is retried. -/
theorem C9_empty_recording_skips_turn (s : InterviewSession) (env : TurnEnv)
    (q : String) (n : Nat)
    (hq : env.question = Except.ok q) (ha : env.audio = Except.ok n)
    (hrec : detect_end_of_speech env.recv = ([], false)) :
    runTurn s env = StepOut.cont { s with current_question := some q }
      [OutMsg.questionMsg q, OutMsg.audioBytes n, OutMsg.startRecord]
    ∧ ({ s with current_question := some q } : InterviewSession).session_log = s.session_log
    ∧ ({ s with current_question := some q } : InterviewSession).remaining_questions
        = s.remaining_questions :=
  ⟨runTurn_eq_no_audio s env q n hq ha hrec, rfl, rfl⟩

/-- C9 witness: a client that sends only an end-of-recording signal produces a
skipped turn on concrete inputs. -/
theorem C9_empty_recording_skips_turn_witness :
    runTurn (InterviewSession.mk "student" "VoiceB" 3 [("Q0", "A0", 0)] (some "Q0"))
        (TurnEnv.mk (Except.ok "Q1") (Except.ok 8)
          [RecvEvent.chunk (Chunk.mk 0 FrameClass.silence)] (Except.ok "A1") 9)
      = StepOut.cont
          (InterviewSession.mk "student" "VoiceB" 3 [("Q0", "A0", 0)] (some "Q1"))
          [OutMsg.questionMsg "Q1", OutMsg.audioBytes 8, OutMsg.startRecord] :=
  (C9_empty_recording_skips_turn
    (InterviewSession.mk "student" "VoiceB" 3 [("Q0", "A0", 0)] (some "Q0"))
    (TurnEnv.mk (Except.ok "Q1") (Except.ok 8)
      [RecvEvent.chunk (Chunk.mk 0 FrameClass.silence)] (Except.ok "A1") 9)
    "Q1" 8 rfl rfl rfl).1

/-- C10: a configured questionCount of zero or below makes the question loop
body never execute — no question, audio, or start_record message is sent —
and the engine immediately emits one completion message whose four metrics
all equal 5.0 with the fixed no-data feedback string. -/
theorem C10_nonpositive_count_immediate_completion (cfg : InitConfig) (qc : Int)
    (api : EvalApi) (envs : List TurnEnv)
    (hqc : cfg.questionCount = some qc) (hle : qc ≤ 0) :
    interview_agent (some cfg) api envs =
      { msgs := [OutMsg.complete
          { fluency := 5, confidence := 5, contentAccuracy := 5, responseTime := 5 }
          "No interview data available for evaluation."]
        outcome := Outcome.completed
        finalSession := some
          { visa_type := cfg.visaType.getD "tourist", voice := cfg.voice.getD "VoiceA"
            remaining_questions := qc, session_log := [], current_question := none } } := by
  have h0 : runLoop api envs
      { visa_type := cfg.visaType.getD "tourist", voice := cfg.voice.getD "VoiceA"
        remaining_questions := qc, session_log := [], current_question := none } =
      { session :=
          { visa_type := cfg.visaType.getD "tourist", voice := cfg.voice.getD "VoiceA"
            remaining_questions := qc, session_log := [], current_question := none }
        msgs := [OutMsg.complete
          { fluency := 5, confidence := 5, contentAccuracy := 5, responseTime := 5 }
          "No interview data available for evaluation."]
        outcome := Outcome.completed } := by
    cases envs <;> simp [runLoop, hle, evaluate_session]
  simp [interview_agent, hqc, h0]

/-- C10 witness: questionCount 0 with a pending (never used) schedule yields
exactly the single default completion message. -/
theorem C10_nonpositive_count_immediate_completion_witness :
    interview_agent (some (InitConfig.mk (some "student") (some "VoiceC") (some 0)))
        EvalApi.apiFailure
        [TurnEnv.mk (Except.ok "Q") (Except.ok 1) [] (Except.ok "A") 0] =
      { msgs := [OutMsg.complete
          { fluency := 5, confidence := 5, contentAccuracy := 5, responseTime := 5 }
          "No interview data available for evaluation."]
        outcome := Outcome.completed
        finalSession := some
          { visa_type := "student", voice := "VoiceC"
            remaining_questions := 0, session_log := [], current_question := none } } :=
  C10_nonpositive_count_immediate_completion _ 0 _ _ rfl (by norm_num)

/-- C5: the end-of-speech detector stops exactly at the configured threshold
of 50 consecutive silence frames or on a zero-length chunk: 50 full-frame
silence-classified chunks yield one terminated segment containing all 50
received chunks, none dropped, with nothing after the threshold consumed; a
speech-classified frame at position 49 resets the silence counter to zero and
the segment extends with whatever follows; a zero-length chunk terminates the
sequence immediately. -/
theorem C5_detector_threshold_termination :
    (∀ (cs : List Chunk) (extra : List RecvEvent),
      cs.length = max_silence_frames →
      (∀ c ∈ cs, 320 ≤ c.size ∧ c.cls = FrameClass.silence) →
      detect_end_of_speech (cs.map RecvEvent.chunk ++ extra) = (cs, false))
    ∧ (∀ (cs : List Chunk) (c : Chunk) (extra : List RecvEvent),
      cs.length = max_silence_frames - 1 →
      (∀ c' ∈ cs, 320 ≤ c'.size ∧ c'.cls = FrameClass.silence) →
      320 ≤ c.size → c.cls = FrameClass.speech →
      detect_end_of_speech (cs.map RecvEvent.chunk ++ (RecvEvent.chunk c :: extra)) =
        (cs ++ c :: (detectFrom extra 0).1, (detectFrom extra 0).2))
    ∧ (∀ (c : Chunk) (rest : List RecvEvent), c.size = 0 →
      detect_end_of_speech (RecvEvent.chunk c :: rest) = ([], false)) := by
  refine ⟨?_, ?_, ?_⟩
  · intro cs extra hlen hall
    have hne : cs ≠ [] := by
      rintro rfl
      simp [max_silence_frames] at hlen
    exact detectFrom_silence_stop cs 0 extra hall (by omega) hne
  · intro cs c extra hlen hall hsz hcls
    have hlt : (0 : Nat) + cs.length < max_silence_frames := by
      simp [max_silence_frames] at hlen ⊢; omega
    have h1 := detectFrom_silence_run cs 0 (RecvEvent.chunk c :: extra) hall hlt
    have hne : ¬ c.size = 0 := by omega
    have hnlt : ¬ c.size < 320 := by omega
    have hth : ¬ max_silence_frames ≤ 0 := by simp [max_silence_frames]
    unfold detect_end_of_speech
    rw [h1]
    simp [detectFrom, hne, hnlt, hcls, hth]
  · intro c rest hz
    simp [detect_end_of_speech, detectFrom, hz]

/-- C5 witness: 50 concrete silence frames terminate the segment with all 50
chunks even with more input pending; a speech frame at position 49 extends
the segment; a zero-length chunk ends it. -/
theorem C5_detector_threshold_termination_witness :
    detect_end_of_speech
        ((List.replicate 50 (Chunk.mk 320 FrameClass.silence)).map RecvEvent.chunk ++
          [RecvEvent.chunk (Chunk.mk 320 FrameClass.speech)]) =
      (List.replicate 50 (Chunk.mk 320 FrameClass.silence), false)
    ∧ detect_end_of_speech
        ((List.replicate 49 (Chunk.mk 320 FrameClass.silence)).map RecvEvent.chunk ++
          (RecvEvent.chunk (Chunk.mk 320 FrameClass.speech) :: [])) =
      (List.replicate 49 (Chunk.mk 320 FrameClass.silence) ++
        Chunk.mk 320 FrameClass.speech :: (detectFrom [] 0).1, (detectFrom [] 0).2)
    ∧ detect_end_of_speech (RecvEvent.chunk (Chunk.mk 0 FrameClass.silence) ::
        [RecvEvent.chunk (Chunk.mk 320 FrameClass.speech)]) = ([], false) := by
  refine ⟨?_, ?_, ?_⟩
  · exact C5_detector_threshold_termination.1 _ _ (by simp [max_silence_frames])
      (by intro c hc; simp at hc; simp [hc])
  · exact C5_detector_threshold_termination.2.1 _ _ _ (by simp [max_silence_frames])
      (by intro c hc; simp at hc; simp [hc]) (by simp) rfl
  · exact C5_detector_threshold_termination.2.2 _ _ rfl

/-- C6: every non-empty chunk is re-emitted downstream before classification;
an undersized chunk (below the 320-byte frame minimum) passes through with
the silence counter untouched; a chunk whose classification raises also
leaves the counter untouched and detection continues. -/
theorem C6_chunk_passthrough_neutral :
    (∀ (c : Chunk) (rest : List RecvEvent) (sf : Nat), c.size ≠ 0 →
      (detectFrom (RecvEvent.chunk c :: rest) sf).1.head? = some c)
    ∧ (∀ (c : Chunk) (rest : List RecvEvent) (sf : Nat), c.size ≠ 0 → c.size < 320 →
      detectFrom (RecvEvent.chunk c :: rest) sf =
        (c :: (detectFrom rest sf).1, (detectFrom rest sf).2))
    ∧ (∀ (c : Chunk) (rest : List RecvEvent) (sf : Nat), 320 ≤ c.size →
      c.cls = FrameClass.err →
      detectFrom (RecvEvent.chunk c :: rest) sf =
        (c :: (detectFrom rest sf).1, (detectFrom rest sf).2)) := by
  refine ⟨?_, ?_, ?_⟩
  · intro c rest sf h
    simp [detectFrom, h]
  · intro c rest sf h hlt
    simp [detectFrom, h, hlt]
  · intro c rest sf hsz hcls
    have hne : ¬ c.size = 0 := by omega
    have hnlt : ¬ c.size < 320 := by omega
    simp [detectFrom, hne, hnlt, hcls]

/-- C6 witness: a 100-byte chunk passes through without touching the counter,
and an erroring 320-byte frame does the same, on concrete inputs. -/
theorem C6_chunk_passthrough_neutral_witness :
    (detectFrom [RecvEvent.chunk (Chunk.mk 100 FrameClass.speech)] 7).1.head? =
      some (Chunk.mk 100 FrameClass.speech)
    ∧ detectFrom [RecvEvent.chunk (Chunk.mk 100 FrameClass.speech)] 7 =
      (Chunk.mk 100 FrameClass.speech :: (detectFrom [] 7).1, (detectFrom [] 7).2)
    ∧ detectFrom [RecvEvent.chunk (Chunk.mk 320 FrameClass.err)] 7 =
      (Chunk.mk 320 FrameClass.err :: (detectFrom [] 7).1, (detectFrom [] 7).2) :=
  ⟨C6_chunk_passthrough_neutral.1 _ [] 7 (by decide),
   C6_chunk_passthrough_neutral.2.1 _ [] 7 (by decide) (by decide),
   C6_chunk_passthrough_neutral.2.2 _ [] 7 (by decide) rfl⟩

/-- C7 counterexample: on `"A? B?"` the first substring ending in a question
mark that starts at the beginning of the text is `"A?"`, but the greedy group
`[^\.]+\?` captures through the last question mark of the period-free run, so
the code returns `"A? B?"`. -/
theorem C7_counterexample :
    extract_question_from_text "A? B?" = "A? B?"
    ∧ specFirstQuestion "A? B?" = "A?"
    ∧ ("A? B?" : String) ≠ "A?" := by
  refine ⟨by rfl, by rfl, by decide⟩

/-- C7 amended: question extraction is greedy rather than first-match — at
the earliest anchor (start of text, or a period/newline) whose following
period-free stretch reaches a question mark, it captures through the LAST
question mark of that stretch (so `"A? B?"` yields `"A? B?"`, not `"A?"`);
the spec's own example still yields `"Where are you traveling to?"`; on text
with no question mark it returns the trimmed original text; it never
raises (it is a total function). -/
theorem C7_amended_greedy_question_extraction :
    extract_question_from_text "...Where are you traveling to?" = "Where are you traveling to?"
    ∧ extract_question_from_text "A? B?" = "A? B?"
    ∧ extract_question_from_text "Hello. Where are you going? Thanks." = "Where are you going?"
    ∧ (∀ s : String, (∀ c ∈ s.data, c ≠ '?') →
        extract_question_from_text s = String.mk (pyStrip s.data)) := by
  refine ⟨by rfl, by rfl, by rfl, ?_⟩
  intro s hnq
  have hnone : questionSearch s.data = none := by
    cases hq : questionSearch s.data with
    | none => rfl
    | some g => exact absurd rfl (hnq '?' (questionSearch_qmark hq))
  simp [extract_question_from_text, hnone]

/-- C7 amended witness: the no-question-mark fallback on a concrete input. -/
theorem C7_amended_greedy_question_extraction_witness :
    extract_question_from_text "  just a statement. " = String.mk (pyStrip "  just a statement. ".data) :=
  C7_amended_greedy_question_extraction.2.2.2 "  just a statement. " (by decide)

/-- C8 counterexample: on a text holding two JSON objects, the first
brace-delimited substring parses to the first object, but the greedy
`\x7b.*\x7d` span runs from the first opening brace to the LAST closing
brace, fails to parse, and the code returns the empty result instead. -/
theorem C8_counterexample :
    extract_json_from_text "\x7b\"a\": 1\x7d \x7b\"b\": 2\x7d" = Json.obj []
    ∧ (specFirstBraceSubstring ("\x7b\"a\": 1\x7d \x7b\"b\": 2\x7d").data).map String.mk
        = some "\x7b\"a\": 1\x7d"
    ∧ pyJsonLoads "\x7b\"a\": 1\x7d" = some (Json.obj [("a", Json.num 1)])
    ∧ specExtractJson "\x7b\"a\": 1\x7d \x7b\"b\": 2\x7d" = Json.obj [("a", Json.num 1)]
    ∧ Json.obj ([] : List (String × Json)) ≠ Json.obj [("a", Json.num 1)] := by
  refine ⟨by rfl, by rfl, by rfl, by rfl, ?_⟩
  intro h
  injection h with h2
  cases h2

/-- C8 amended: structured extraction first tries the fenced block (tag
optional); if that is absent or unparsable it tries the substring from the
first opening brace to the LAST closing brace of the text; if that also fails
to parse it returns the empty object, which the (spec-modelled) fallback
chain treats as a failed source. -/
theorem C8_amended_extraction_order :
    (∀ (s : String) (g : List Char) (v : Json),
      fencedGroup s.data = some g → pyJsonLoads (String.mk g) = some v →
      extract_json_from_text s = v)
    ∧ (∀ (s : String) (g : List Char),
      fencedGroup s.data = some g → pyJsonLoads (String.mk g) = none →
      extract_json_from_text s = braceAttempt s)
    ∧ (∀ s : String, fencedGroup s.data = none →
      extract_json_from_text s = braceAttempt s)
    ∧ (∀ (s : String) (sub : List Char),
      braceSpan s.data = some sub → pyJsonLoads (String.mk sub) = none →
      braceAttempt s = Json.obj [])
    ∧ (∀ s : String, braceSpan s.data = none → braceAttempt s = Json.obj [])
    ∧ fallbackChainAccepts (Json.obj []) = false
    ∧ extract_json_from_text "Sure! ```json\n\x7b\"relevance\": 9\x7d\n```"
        = Json.obj [("relevance", Json.num 9)]
    ∧ extract_json_from_text "no json here" = Json.obj []
    ∧ extract_json_from_text "see \x7b\"a\": 2\x7d there" = Json.obj [("a", Json.num 2)] := by
  refine ⟨?_, ?_, ?_, ?_, ?_, rfl, by rfl, by rfl, by rfl⟩
  · intro s g v hg hv
    simp [extract_json_from_text, hg, hv]
  · intro s g hg hv
    simp [extract_json_from_text, hg, hv]
  · intro s hg
    simp [extract_json_from_text, hg]
  · intro s sub hs hv
    simp [braceAttempt, hs, hv]
  · intro s hs
    simp [braceAttempt, hs]

/-- C8 amended witness: the fenced, brace and empty stages at concrete
inputs, discharged through the general clauses. -/
theorem C8_amended_extraction_order_witness :
    extract_json_from_text "x ```json\n\x7b\"k\": 3\x7d\n``` y"
      = Json.obj [("k", Json.num 3)]
    ∧ extract_json_from_text "fence ```\nbad\n``` \x7b\"k\": 4\x7d"
      = braceAttempt "fence ```\nbad\n``` \x7b\"k\": 4\x7d"
    ∧ braceAttempt "nothing braced" = Json.obj [] := by
  refine ⟨?_, ?_, ?_⟩
  · exact C8_amended_extraction_order.1 _ ("\x7b\"k\": 3\x7d").data
      (Json.obj [("k", Json.num 3)]) rfl rfl
  · exact C8_amended_extraction_order.2.1 _ "bad".data rfl rfl
  · exact C8_amended_extraction_order.2.2.2.2.1 _ rfl

/-- C4 counterexample: a generated text whose fenced block parses to
`\x7b"foo": 2\x7d` makes `evaluate_answer` return that object verbatim — the
unrecognized key `"foo"` is kept, the four default keys (e.g. `"relevance"`)
are absent, so the result is neither merged onto the defaults nor fully
populated. -/
theorem C4_counterexample :
    evaluate_answer_extract "```json\n\x7b\"foo\": 2\x7d\n```"
      = Json.obj [("foo", Json.num 2)]
    ∧ (evaluate_answer_extract "```json\n\x7b\"foo\": 2\x7d\n```").lookup "relevance" = none
    ∧ (evaluate_answer_extract "```json\n\x7b\"foo\": 2\x7d\n```").lookup "foo"
        = some (Json.num 2) := by
  refine ⟨by rfl, by rfl, by rfl⟩

/-- C4 amended: `evaluate_answer` returns any successfully parsed object
verbatim — no merging onto the defaults and no range check — and the full
default map only when nothing parses; `process_response` does merge per key
onto its defaults, ignoring unrecognized keys and keeping the default for a
missing or non-numeric key, but performs no range check, so an out-of-range
numeric value such as 99 is kept. -/
theorem C4_amended_metrics_merge :
    (∀ (content : String) (g : List Char) (v : Json),
      fencedGroupJsonTag content.data = some g → pyJsonLoads (String.mk g) = some v →
      evaluate_answer_extract content = v)
    ∧ (∀ content : String,
      fencedGroupJsonTag content.data = none → braceSpan content.data = none →
      evaluate_answer_extract content = agentDefaultMetrics)
    ∧ (∀ (ev k : String) (d : ℚ), findMetricValue k.data ev.data = none →
      (k, d) ∈ processDefaultMetrics →
      List.lookup k (process_response_metrics (some ev)) = some d)
    ∧ (∀ ev : String,
      (process_response_metrics (some ev)).map Prod.fst
        = ["relevance", "clarity", "detail", "consistency"])
    ∧ process_response_metrics (some "relevance: 99")
        = [("relevance", 99), ("clarity", 7), ("detail", 6), ("consistency", 8)]
    ∧ ¬ ((99 : ℚ) ≤ 10) := by
  refine ⟨?_, ?_, ?_, ?_, by rfl, by norm_num⟩
  · intro content g v hg hv
    simp [evaluate_answer_extract, hg, hv]
  · intro content hg hb
    simp [evaluate_answer_extract, hg, hb]
  · intro ev k d hf hmem
    simp only [processDefaultMetrics, List.mem_cons, List.mem_singleton,
      Prod.mk.injEq, List.not_mem_nil, or_false] at hmem
    rcases hmem with ⟨rfl, rfl⟩ | ⟨rfl, rfl⟩ | ⟨rfl, rfl⟩ | ⟨rfl, rfl⟩ <;>
      simp [process_response_metrics, processDefaultMetrics, List.lookup, hf]
  · intro ev
    simp [process_response_metrics, processDefaultMetrics]

/-- C4 amended witness: the verbatim return, the all-defaults fallback, the
kept default and the four keys at concrete inputs. -/
theorem C4_amended_metrics_merge_witness :
    evaluate_answer_extract "```json\n\x7b\"relevance\": 9\x7d\n```"
      = Json.obj [("relevance", Json.num 9)]
    ∧ evaluate_answer_extract "no structure at all" = agentDefaultMetrics
    ∧ List.lookup "clarity" (process_response_metrics (some "relevance: 99")) = some 7
    ∧ (process_response_metrics (some "relevance: 99")).map Prod.fst
        = ["relevance", "clarity", "detail", "consistency"] := by
  refine ⟨?_, ?_, ?_, ?_⟩
  · exact C4_amended_metrics_merge.1 _ ("\x7b\"relevance\": 9\x7d").data
      (Json.obj [("relevance", Json.num 9)]) rfl rfl
  · exact C4_amended_metrics_merge.2.1 _ rfl rfl
  · exact C4_amended_metrics_merge.2.2.1 "relevance: 99" "clarity" 7 rfl (by decide)
  · exact C4_amended_metrics_merge.2.2.2.1 "relevance: 99"

end VisaAgent
